import Mathlib

/-!
Shallow embedding of the view-navigation state model and the screen-component
operations of the content-management dashboard, together with theorems about
the behaviours they implement.
-/

namespace CMS

/-- The closed set of view tags (the union type View in the source). -/
inductive View
  | dashboard
  | editor
  | projects
  | templates
  | analytics
  | settings
  deriving DecidableEq, Repr

/-- The navigation slice of the AppState record in the source. -/
structure NavState where
  currentView : View
  selectedProjectId : Option String
  selectedPageId : Option String
  deriving DecidableEq, Repr

/-- Initial navigation state from the useState initializer at startup:
dashboard with no project and no page selected. -/
def navInit : NavState :=
  { currentView := View.dashboard
    selectedProjectId := none
    selectedPageId := none }

/-- JavaScript truthiness of an optional string argument: an argument that is
not passed (undefined) and the empty string are both falsy. -/
def truthy : Option String → Bool
  | none => false
  | some s => s != ""

/-- navigateToView from the source: sets currentView to view, and overwrites
each selection with its argument only when that argument is truthy, keeping the
previous value otherwise (projectId OR prev.selectedProjectId, likewise for
pageId). -/
def navigateToView (s : NavState) (view : View)
    (projectId : Option String := none) (pageId : Option String := none) : NavState :=
  { currentView := view
    selectedProjectId := if truthy projectId then projectId else s.selectedProjectId
    selectedPageId := if truthy pageId then pageId else s.selectedPageId }

/-- One navigateToView call with its optional arguments. -/
structure NavCall where
  view : View
  projectId : Option String := none
  pageId : Option String := none
  deriving DecidableEq, Repr

/-- Run a finite sequence of navigateToView calls from a starting state. -/
def runCalls (s : NavState) (cs : List NavCall) : NavState :=
  cs.foldl (fun t c => navigateToView t c.view c.projectId c.pageId) s

/-- The most recently passed truthy value in a list of optional arguments, or
the initial value when no truthy value occurs. -/
def lastTruthy (init : Option String) (args : List (Option String)) : Option String :=
  args.foldl (fun acc a => if truthy a then a else acc) init

/-- Trimming of leading and trailing whitespace, the semantics of the trim
method on JavaScript strings. -/
def jsTrim (s : String) : String :=
  ⟨((s.data.dropWhile Char.isWhitespace).reverse.dropWhile Char.isWhitespace).reverse⟩

/-- The distinct screens the router can render; the editor screen receives the
current selection. -/
inductive Screen
  | dashboardScreen
  | editorScreen (projectId : Option String) (pageId : Option String)
  | projectsScreen
  | templatesScreen
  | analyticsScreen
  | settingsScreen
  deriving DecidableEq, Repr

/-- renderView from the source: a switch on the currentView tag value, with a
default branch rendering the dashboard screen. The selection is passed to the
editor screen only. -/
def renderView (tag : String) (selectedProjectId selectedPageId : Option String) : Screen :=
  if tag = "dashboard" then Screen.dashboardScreen
  else if tag = "editor" then Screen.editorScreen selectedProjectId selectedPageId
  else if tag = "projects" then Screen.projectsScreen
  else if tag = "templates" then Screen.templatesScreen
  else if tag = "analytics" then Screen.analyticsScreen
  else if tag = "settings" then Screen.settingsScreen
  else Screen.dashboardScreen

/-- The string value of each view tag, as compared by the switch. -/
def View.tag : View → String
  | .dashboard => "dashboard"
  | .editor => "editor"
  | .projects => "projects"
  | .templates => "templates"
  | .analytics => "analytics"
  | .settings => "settings"

/-- Project record (projects table row) from the database types in the source;
theme_settings is an opaque value modelled as an optional string. -/
structure Project where
  id : String
  name : String
  description : Option String
  domain : Option String
  subdomain : Option String
  created_at : String
  updated_at : String
  user_id : String
  is_published : Bool
  theme_settings : Option String
  deriving DecidableEq, Repr

/-- Page record (pages table row) from the database types in the source. -/
structure Page where
  id : String
  project_id : String
  title : String
  slug : String
  content : String
  meta_description : Option String
  meta_keywords : Option String
  is_published : Bool
  order_index : Nat
  parent_id : Option String
  created_at : String
  updated_at : String
  deriving DecidableEq, Repr

/-- Analytics record (analytics table row) from the database types in the
source; event_data is an opaque value modelled as an optional string. -/
structure Analytics where
  id : String
  project_id : String
  page_id : Option String
  event_type : String
  event_data : Option String
  timestamp : String
  user_agent : Option String
  ip_address : Option String
  deriving DecidableEq, Repr

/-- Column values of a projects-table insert issued by the project manager;
columns a call omits are none. -/
structure ProjectInsert where
  name : String
  description : Option String
  subdomain : Option String := none
  user_id : String
  is_published : Bool
  theme_settings : Option String := none
  deriving DecidableEq, Repr

/-- Column values of one pages-table insert row; columns a call omits are
none. -/
structure PageInsert where
  project_id : String
  title : String
  slug : String
  content : String
  meta_description : Option String := none
  meta_keywords : Option String := none
  is_published : Bool
  order_index : Nat
  parent_id : Option String := none
  deriving DecidableEq, Repr

/-- Column values written by the pages-table update issued by handleSave. -/
structure PageUpdate where
  title : String
  slug : String
  content : String
  meta_description : String
  meta_keywords : String
  is_published : Bool
  updated_at : String
  deriving DecidableEq, Repr

/-- Observable backend calls, notifications and navigation intents issued by
the screen components, in program order. -/
inductive Effect
  | getUser
  | insertProject (row : ProjectInsert)
  | insertPage (row : PageInsert)
  | insertPages (rows : List PageInsert)
  | selectPages (projectId : String)
  | updatePage (id : String) (row : PageUpdate)
  | deletePageRow (id : String)
  | navigate (view : View) (projectId : Option String) (pageId : Option String)
  | toastError (msg : String)
  | toastSuccess (msg : String)
  deriving DecidableEq, Repr

/-- Page rows inserted by one effect. -/
def Effect.pageRows : Effect → List PageInsert
  | .insertPage r => [r]
  | .insertPages rs => rs
  | _ => []

/-- Project rows inserted by one effect. -/
def Effect.projectRows : Effect → List ProjectInsert
  | .insertProject r => [r]
  | _ => []

/-- All page rows inserted across a list of effects. -/
def pagesInserted (effs : List Effect) : List PageInsert :=
  (effs.map Effect.pageRows).flatten

/-- All project rows inserted across a list of effects. -/
def projectsInserted (effs : List Effect) : List ProjectInsert :=
  (effs.map Effect.projectRows).flatten

/-- Whether an effect is a call to the backend API at all. -/
def Effect.isBackendCall : Effect → Bool
  | .getUser => true
  | .insertProject _ => true
  | .insertPage _ => true
  | .insertPages _ => true
  | .selectPages _ => true
  | .updatePage _ _ => true
  | .deletePageRow _ => true
  | _ => false

/-- Whether an effect modifies (updates or deletes) an existing backend
record; inserts only create new rows. -/
def Effect.modifiesExisting : Effect → Bool
  | .updatePage _ _ => true
  | .deletePageRow _ => true
  | _ => false

/-- The new-project dialog form state of the project manager. -/
structure NewProjectForm where
  name : String
  description : String
  subdomain : String
  deriving DecidableEq, Repr

/-- Backend responses observed by one createProject run: the authenticated
user id if any, the id the backend assigns to the inserted project row, and
whether that insert succeeds. -/
structure CreateEnv where
  user : Option String
  newId : String
  projectInsertOk : Bool
  deriving DecidableEq, Repr

/-- The default home page row createProject inserts for the new project. -/
def homePageRow (projectId : String) (name : String) : PageInsert :=
  { project_id := projectId
    title := "Home"
    slug := "home"
    content := "# Welcome to " ++ name
      ++ "\n\nThis is your homepage. Start editing to create amazing content!"
    meta_description := some ("Welcome to " ++ name)
    is_published := false
    order_index := 0 }

/-- createProject from the source, as the sequence of effects it issues. An
empty trimmed name aborts before any backend call with an error toast; a
missing user or a failed project insert is caught and surfaced as an error
toast; otherwise the project row and the default home page row are inserted,
a success toast is shown and the app navigates to the editor for the new
project. -/
def createProject (form : NewProjectForm) (env : CreateEnv) : List Effect :=
  if jsTrim form.name = "" then
    [Effect.toastError "Project name is required"]
  else
    match env.user with
    | none => [Effect.getUser, Effect.toastError "Failed to create project"]
    | some uid =>
      let row : ProjectInsert :=
        { name := form.name
          description := some form.description
          subdomain := if form.subdomain = "" then none else some form.subdomain
          user_id := uid
          is_published := false }
      if env.projectInsertOk then
        [Effect.getUser, Effect.insertProject row,
         Effect.insertPage (homePageRow env.newId form.name),
         Effect.toastSuccess "Project created successfully!",
         Effect.navigate View.editor (some env.newId) none]
      else
        [Effect.getUser, Effect.insertProject row,
         Effect.toastError "Failed to create project"]

/-- Backend responses observed by one duplicateProject run: the authenticated
user id if any, the id assigned to the inserted project row, the pages fetched
for the original project, and the success of each backend call. -/
structure DupEnv where
  user : Option String
  newId : String
  projectInsertOk : Bool
  fetchedPages : List Page
  pagesFetchOk : Bool
  pagesInsertOk : Bool
  deriving DecidableEq, Repr

/-- The project row duplicateProject inserts for the copy. -/
def dupProjectRow (project : Project) (uid : String) : ProjectInsert :=
  { name := project.name ++ " (Copy)"
    description := project.description
    user_id := uid
    is_published := false
    theme_settings := project.theme_settings }

/-- The copy of one original page that duplicateProject inserts into the new
project: all content fields are preserved, is_published is reset to false and
project_id is the id of the new project. -/
def dupPageRow (newProjectId : String) (page : Page) : PageInsert :=
  { project_id := newProjectId
    title := page.title
    slug := page.slug
    content := page.content
    meta_description := page.meta_description
    meta_keywords := page.meta_keywords
    is_published := false
    order_index := page.order_index
    parent_id := page.parent_id }

/-- duplicateProject from the source, as the sequence of effects it issues:
fetch the user, insert the copied project row, fetch all pages of the original
project and, when there is at least one, insert their copies in one batch; any
failure is caught and surfaced as an error toast. -/
def duplicateProject (project : Project) (env : DupEnv) : List Effect :=
  match env.user with
  | none => [Effect.getUser, Effect.toastError "Failed to duplicate project"]
  | some uid =>
    if env.projectInsertOk then
      if env.pagesFetchOk then
        if env.fetchedPages.length > 0 then
          if env.pagesInsertOk then
            [Effect.getUser, Effect.insertProject (dupProjectRow project uid),
             Effect.selectPages project.id,
             Effect.insertPages (env.fetchedPages.map (dupPageRow env.newId)),
             Effect.toastSuccess "Project duplicated successfully!"]
          else
            [Effect.getUser, Effect.insertProject (dupProjectRow project uid),
             Effect.selectPages project.id,
             Effect.insertPages (env.fetchedPages.map (dupPageRow env.newId)),
             Effect.toastError "Failed to duplicate project"]
        else
          [Effect.getUser, Effect.insertProject (dupProjectRow project uid),
           Effect.selectPages project.id,
           Effect.toastSuccess "Project duplicated successfully!"]
      else
        [Effect.getUser, Effect.insertProject (dupProjectRow project uid),
         Effect.selectPages project.id,
         Effect.toastError "Failed to duplicate project"]
    else
      [Effect.getUser, Effect.insertProject (dupProjectRow project uid),
       Effect.toastError "Failed to duplicate project"]

/-- The pageData form state of the page editor. -/
structure PageData where
  title : String
  slug : String
  content : String
  metaDescription : String
  metaKeywords : String
  isPublished : Bool
  deriving DecidableEq, Repr

/-- The local record state of the page editor: the fetched pages of the
project and the currently edited page. -/
structure EditorState where
  pages : List Page
  currentPage : Option Page
  deriving DecidableEq, Repr

/-- The pages-table update payload handleSave builds from a pageData
snapshot and the current timestamp. -/
def saveRow (pd : PageData) (now : String) : PageUpdate :=
  { title := pd.title
    slug := pd.slug
    content := pd.content
    meta_description := pd.metaDescription
    meta_keywords := pd.metaKeywords
    is_published := pd.isPublished
    updated_at := now }

/-- The local copy update handleSave applies to a page in the list on a
successful save. -/
def applyPageData (pd : PageData) (p : Page) : Page :=
  { p with
    title := pd.title
    slug := pd.slug
    content := pd.content
    meta_description := some pd.metaDescription
    meta_keywords := some pd.metaKeywords
    is_published := pd.isPublished }

/-- handleSave from the source, reading the pageData snapshot pd its closure
captured: it returns early when there is no current page or no project id,
otherwise it issues the pages update built from pd and, on success, updates
the local page list and shows a success toast. -/
def handleSave (st : EditorState) (projectId : Option String) (pd : PageData)
    (now : String) (dbOk : Bool) : EditorState × List Effect :=
  match st.currentPage, projectId with
  | some cp, some _ =>
    if dbOk then
      ({ st with
          pages := st.pages.map (fun p => if p.id = cp.id then applyPageData pd p else p) },
       [Effect.updatePage cp.id (saveRow pd now),
        Effect.toastSuccess "Page saved successfully!"])
    else
      (st, [Effect.updatePage cp.id (saveRow pd now),
            Effect.toastError "Failed to save page"])
  | _, _ => (st, [])

/-- handlePublish from the source: it computes the negation of the current
isPublished, schedules a state update installing it, and schedules handleSave
through setTimeout. The scheduled callback is the handleSave closure of the
current render, which captured the current, pre-flip pageData snapshot. The
first component is the pageData after the state update; the second is the
snapshot the scheduled handleSave will read. -/
def handlePublish (pd : PageData) : PageData × PageData :=
  let newPublishState := !pd.isPublished
  ({ pd with isPublished := newPublishState }, pd)

/-- deletePage from the source: it rejects with an error toast when at most
one page remains, issuing no backend call and leaving the state unchanged;
otherwise it issues the backend delete, removes the page from the local list
and, when the deleted page was the current one and pages remain, navigates to
the first remaining page. -/
def deletePage (st : EditorState) (projectId : Option String) (pageToDelete : Page)
    (dbOk : Bool) : EditorState × List Effect :=
  if st.pages.length ≤ 1 then
    (st, [Effect.toastError "Cannot delete the last page"])
  else if dbOk then
    let updatedPages := st.pages.filter (fun p => p.id != pageToDelete.id)
    let navEffs :=
      match st.currentPage, updatedPages with
      | some cp, q :: _ =>
        if cp.id = pageToDelete.id then
          [Effect.navigate View.editor projectId (some q.id)]
        else []
      | _, _ => []
    ({ st with pages := updatedPages },
     [Effect.deletePageRow pageToDelete.id] ++ navEffs
       ++ [Effect.toastSuccess "Page deleted successfully"])
  else
    (st, [Effect.deletePageRow pageToDelete.id,
          Effect.toastError "Failed to delete page"])

/-- The derived dashboard statistics record. -/
structure Stats where
  totalProjects : Nat
  publishedSites : Nat
  totalViews : Nat
  activeUsers : Nat
  deriving DecidableEq, Repr

/-- The statistics derivation of loadDashboardData from the fetched projects
(the most-recent five by updated_at) and all analytics rows: activeUsers is
the floor of totalViews times 0.4, taken as the exact rational product. -/
def dashboardStats (projectsData : List Project) (analyticsData : List Analytics) : Stats :=
  let totalProjects := projectsData.length
  let publishedSites := (projectsData.filter (fun p => p.is_published)).length
  let totalViews := analyticsData.length
  { totalProjects := totalProjects
    publishedSites := publishedSites
    totalViews := totalViews
    activeUsers := Nat.floor ((totalViews : ℚ) * (4 / 10)) }

/-- A sample page used to instantiate theorems at concrete inputs. -/
def samplePage : Page :=
  { id := "pg1"
    project_id := "pr1"
    title := "Home"
    slug := "home"
    content := "hello"
    meta_description := none
    meta_keywords := none
    is_published := false
    order_index := 0
    parent_id := none
    created_at := "2024-01-01"
    updated_at := "2024-01-02" }

/-- A second sample page. -/
def samplePage2 : Page :=
  { samplePage with id := "pg2", slug := "about", title := "About", order_index := 1 }

/-- A third sample page. -/
def samplePage3 : Page :=
  { samplePage with
    id := "pg3"
    slug := "blog"
    title := "Blog"
    order_index := 2
    is_published := true }

/-- A sample project used to instantiate theorems at concrete inputs. -/
def sampleProject : Project :=
  { id := "pr1"
    name := "Test"
    description := some "demo"
    domain := none
    subdomain := some "test"
    created_at := "2024-01-01"
    updated_at := "2024-01-02"
    user_id := "u1"
    is_published := false
    theme_settings := none }

/-- A sample duplication environment with three fetched pages, used to
instantiate theorems at concrete inputs. -/
def sampleDupEnv : DupEnv :=
  { user := some "u1"
    newId := "pr2"
    projectInsertOk := true
    fetchedPages := [samplePage, samplePage2, samplePage3]
    pagesFetchOk := true
    pagesInsertOk := true }

/-- A sample pageData snapshot for an unpublished page. -/
def samplePageData : PageData :=
  { title := "Home"
    slug := "home"
    content := "hello"
    metaDescription := ""
    metaKeywords := ""
    isPublished := false }

/-! Helper lemmas about sequences of navigateToView calls. -/

theorem runCalls_append (s : NavState) (cs ds : List NavCall) :
    runCalls s (cs ++ ds) = runCalls (runCalls s cs) ds :=
  List.foldl_append _ _ _ _

theorem runCalls_selectedProjectId (cs : List NavCall) (s : NavState) :
    (runCalls s cs).selectedProjectId
      = lastTruthy s.selectedProjectId (cs.map NavCall.projectId) := by
  induction cs generalizing s with
  | nil => rfl
  | cons c cs ih =>
    show (runCalls (navigateToView s c.view c.projectId c.pageId) cs).selectedProjectId = _
    rw [ih]
    rfl

theorem runCalls_selectedPageId (cs : List NavCall) (s : NavState) :
    (runCalls s cs).selectedPageId
      = lastTruthy s.selectedPageId (cs.map NavCall.pageId) := by
  induction cs generalizing s with
  | nil => rfl
  | cons c cs ih =>
    show (runCalls (navigateToView s c.view c.projectId c.pageId) cs).selectedPageId = _
    rw [ih]
    rfl

theorem truthy_ne_none {a : Option String} (h : truthy a = true) : a ≠ none := by
  cases a with
  | none => simp [truthy] at h
  | some s => simp

theorem lastTruthy_ne_none (init : Option String) (args : List (Option String))
    (h : init ≠ none) : lastTruthy init args ≠ none := by
  induction args generalizing init with
  | nil => exact h
  | cons a args ih =>
    show lastTruthy (if truthy a then a else init) args ≠ none
    by_cases ht : truthy a = true
    · rw [if_pos ht]
      exact ih a (truthy_ne_none ht)
    · rw [if_neg ht]
      exact ih init h

/-- C1 (amended): for every starting navigation state and every finite sequence
of navigateToView calls, after each call currentView equals the view argument
of that call, and selectedProjectId (respectively selectedPageId) equals the
most recently passed truthy — non-absent and non-empty — projectId
(respectively pageId) argument, or the initial value if no truthy one was ever
passed; absent and empty-string arguments retain the previous values. -/
theorem navigateToView_merge_retain_law (s : NavState) (cs : List NavCall) (c : NavCall) :
    (runCalls s (cs ++ [c])).currentView = c.view ∧
    (runCalls s (cs ++ [c])).selectedProjectId
      = lastTruthy s.selectedProjectId ((cs ++ [c]).map NavCall.projectId) ∧
    (runCalls s (cs ++ [c])).selectedPageId
      = lastTruthy s.selectedPageId ((cs ++ [c]).map NavCall.pageId) := by
  refine ⟨?_, runCalls_selectedProjectId _ _, runCalls_selectedPageId _ _⟩
  rw [runCalls_append]
  rfl

/-- C1 counterexample: in the call sequence editor with projectId p1, then
dashboard with projectId the empty string, the most recently passed non-absent
projectId argument is the empty string, yet the resulting selectedProjectId is
p1, not the empty string — the code treats the passed empty string as absent. -/
theorem navigateToView_empty_string_cex :
    (runCalls navInit
        [{ view := View.editor, projectId := some "p1" },
         { view := View.dashboard, projectId := some "" }]).selectedProjectId = some "p1"
      ∧ (some "p1" : Option String) ≠ some "" := by
  exact ⟨rfl, by decide⟩

/-- C2: from any starting state, navigating to the editor with project p1,
then to the dashboard with no arguments, then back to the editor with no
arguments ends in the editor with project p1 still selected and the page
selection unchanged. -/
theorem navigateToView_back_and_forth (s : NavState) :
    navigateToView (navigateToView (navigateToView s View.editor (some "p1") none)
        View.dashboard none none) View.editor none none
      = { currentView := View.editor
          selectedProjectId := some "p1"
          selectedPageId := s.selectedPageId } := rfl

/-- C3: applying navigateToView to the dashboard with no selection arguments
twice in a row yields the same state as applying it once. -/
theorem navigateToView_dashboard_idem (s : NavState) :
    navigateToView (navigateToView s View.dashboard none none) View.dashboard none none
      = navigateToView s View.dashboard none none := rfl

/-- C10: once selectedProjectId (respectively selectedPageId) is non-null, no
sequence of navigateToView calls can make it null again, and passing the empty
string as projectId or pageId retains the previous value, because falsy
arguments are treated as absent. -/
theorem navigateToView_no_clear_invariant (s : NavState) (cs : List NavCall)
    (v : View) (pid pgid : Option String) :
    (s.selectedProjectId ≠ none → (runCalls s cs).selectedProjectId ≠ none) ∧
    (s.selectedPageId ≠ none → (runCalls s cs).selectedPageId ≠ none) ∧
    (navigateToView s v (some "") pgid).selectedProjectId = s.selectedProjectId ∧
    (navigateToView s v pid (some "")).selectedPageId = s.selectedPageId := by
  refine ⟨?_, ?_, rfl, rfl⟩
  · intro h
    rw [runCalls_selectedProjectId]
    exact lastTruthy_ne_none _ _ h
  · intro h
    rw [runCalls_selectedPageId]
    exact lastTruthy_ne_none _ _ h

/-- C10 witness: a concrete state with both selections set keeps them non-null
across a concrete call sequence, and a concrete empty-string call retains the
project selection. -/
theorem navigateToView_no_clear_invariant_witness :
    (runCalls
        { currentView := View.editor
          selectedProjectId := some "p1"
          selectedPageId := some "pg1" }
        [{ view := View.dashboard }, { view := View.editor, projectId := some "" }]
      ).selectedProjectId ≠ none
    ∧ (navigateToView
        { currentView := View.editor
          selectedProjectId := some "p1"
          selectedPageId := some "pg1" }
        View.dashboard (some "") none).selectedProjectId = some "p1" :=
  ⟨(navigateToView_no_clear_invariant
      { currentView := View.editor
        selectedProjectId := some "p1"
        selectedPageId := some "pg1" }
      [{ view := View.dashboard }, { view := View.editor, projectId := some "" }]
      View.dashboard (some "") none).1 (by decide),
   (navigateToView_no_clear_invariant
      { currentView := View.editor
        selectedProjectId := some "p1"
        selectedPageId := some "pg1" }
      [{ view := View.dashboard }, { view := View.editor, projectId := some "" }]
      View.dashboard (some "") none).2.2.1⟩

/-- C9: the router is total — each of the six view tags maps to its screen,
and any other tag value falls back to the dashboard screen — and the initial
navigation state is the dashboard with no project and no page selected. -/
theorem renderView_total_and_initial_state (pid pgid : Option String) :
    renderView "dashboard" pid pgid = Screen.dashboardScreen ∧
    renderView "editor" pid pgid = Screen.editorScreen pid pgid ∧
    renderView "projects" pid pgid = Screen.projectsScreen ∧
    renderView "templates" pid pgid = Screen.templatesScreen ∧
    renderView "analytics" pid pgid = Screen.analyticsScreen ∧
    renderView "settings" pid pgid = Screen.settingsScreen ∧
    (∀ tag : String, tag ≠ "dashboard" → tag ≠ "editor" → tag ≠ "projects" →
      tag ≠ "templates" → tag ≠ "analytics" → tag ≠ "settings" →
      renderView tag pid pgid = Screen.dashboardScreen) ∧
    navInit.currentView = View.dashboard ∧
    navInit.selectedProjectId = none ∧
    navInit.selectedPageId = none := by
  refine ⟨rfl, ?_, ?_, ?_, ?_, ?_, ?_, rfl, rfl, rfl⟩
  · simp [renderView]
  · simp [renderView]
  · simp [renderView]
  · simp [renderView]
  · simp [renderView]
  · intro tag h1 h2 h3 h4 h5 h6
    simp [renderView, h1, h2, h3, h4, h5, h6]

/-- C9 witness: an unrecognized tag renders the dashboard screen at a concrete
selection, obtained from the totality theorem. -/
theorem renderView_total_and_initial_state_witness :
    renderView "bogus" (some "p1") none = Screen.dashboardScreen :=
  (renderView_total_and_initial_state (some "p1") none).2.2.2.2.2.2.1 "bogus"
    (by decide) (by decide) (by decide) (by decide) (by decide) (by decide)

/-- C4: when exactly one page remains in the editor, deletePage is rejected
atomically — the returned state is unchanged, the effect list is only the
error toast, and no backend call is issued. -/
theorem deletePage_last_page_rejected (st : EditorState) (projectId : Option String)
    (p : Page) (dbOk : Bool) (h : st.pages.length = 1) :
    deletePage st projectId p dbOk = (st, [Effect.toastError "Cannot delete the last page"]) ∧
    (deletePage st projectId p dbOk).2.filter Effect.isBackendCall = [] := by
  have hle : st.pages.length ≤ 1 := by omega
  constructor
  · simp [deletePage, hle]
  · simp [deletePage, hle, Effect.isBackendCall]

/-- C4 witness: a concrete editor state holding a single page is returned
unchanged with only the error toast. -/
theorem deletePage_last_page_rejected_witness :
    deletePage { pages := [samplePage], currentPage := some samplePage }
        (some "pr1") samplePage true
      = ({ pages := [samplePage], currentPage := some samplePage },
         [Effect.toastError "Cannot delete the last page"]) :=
  (deletePage_last_page_rejected
    { pages := [samplePage], currentPage := some samplePage }
    (some "pr1") samplePage true rfl).1

/-- C5: when the trimmed project name is empty, createProject makes no backend
call at all and only shows an error toast; otherwise, given an authenticated
user and a successful project insert, it inserts exactly one page row, for the
newly created project, with title Home, slug home, is_published false and
order_index 0. -/
theorem createProject_default_home_page (form : NewProjectForm) (env : CreateEnv) :
    (jsTrim form.name = "" →
      createProject form env = [Effect.toastError "Project name is required"] ∧
      (createProject form env).filter Effect.isBackendCall = []) ∧
    (jsTrim form.name ≠ "" → env.user ≠ none → env.projectInsertOk = true →
      pagesInserted (createProject form env) = [homePageRow env.newId form.name] ∧
      (homePageRow env.newId form.name).project_id = env.newId ∧
      (homePageRow env.newId form.name).title = "Home" ∧
      (homePageRow env.newId form.name).slug = "home" ∧
      (homePageRow env.newId form.name).is_published = false ∧
      (homePageRow env.newId form.name).order_index = 0) := by
  constructor
  · intro h
    refine ⟨?_, ?_⟩
    · simp [createProject, h]
    · simp [createProject, h, Effect.isBackendCall]
  · intro hn hu hok
    cases huser : env.user with
    | none => exact absurd huser hu
    | some uid =>
      refine ⟨?_, rfl, rfl, rfl, rfl, rfl⟩
      simp [createProject, hn, huser, hok, pagesInserted, Effect.pageRows]

/-- C5 witness: a concrete non-empty name yields exactly the default home page
row, and a concrete whitespace-only name yields only the error toast. -/
theorem createProject_default_home_page_witness :
    pagesInserted (createProject { name := "Test", description := "", subdomain := "" }
        { user := some "u1", newId := "pr9", projectInsertOk := true })
      = [homePageRow "pr9" "Test"]
    ∧ createProject { name := "   ", description := "", subdomain := "" }
        { user := some "u1", newId := "pr9", projectInsertOk := true }
      = [Effect.toastError "Project name is required"] :=
  ⟨((createProject_default_home_page
      { name := "Test", description := "", subdomain := "" }
      { user := some "u1", newId := "pr9", projectInsertOk := true }).2
      (by decide) (by decide) rfl).1,
   ((createProject_default_home_page
      { name := "   ", description := "", subdomain := "" }
      { user := some "u1", newId := "pr9", projectInsertOk := true }).1
      (by decide)).1⟩

/-- C6: duplicating a project whose page fetch returns three pages, given an
authenticated user and successful backend calls, inserts exactly one new
project row and exactly three copied page rows — each preserving title, slug,
content, meta fields, order_index and parent_id, carrying the new project id
and is_published false — and issues no effect that updates or deletes any
existing record. -/
theorem duplicateProject_copies_pages (project : Project) (env : DupEnv) (uid : String)
    (hu : env.user = some uid) (hp : env.projectInsertOk = true)
    (hf : env.pagesFetchOk = true) (hi : env.pagesInsertOk = true)
    (h3 : env.fetchedPages.length = 3) :
    projectsInserted (duplicateProject project env) = [dupProjectRow project uid] ∧
    pagesInserted (duplicateProject project env)
      = env.fetchedPages.map (dupPageRow env.newId) ∧
    (pagesInserted (duplicateProject project env)).length = 3 ∧
    (∀ p : Page, (dupPageRow env.newId p).project_id = env.newId
      ∧ (dupPageRow env.newId p).title = p.title
      ∧ (dupPageRow env.newId p).slug = p.slug
      ∧ (dupPageRow env.newId p).content = p.content
      ∧ (dupPageRow env.newId p).meta_description = p.meta_description
      ∧ (dupPageRow env.newId p).meta_keywords = p.meta_keywords
      ∧ (dupPageRow env.newId p).order_index = p.order_index
      ∧ (dupPageRow env.newId p).parent_id = p.parent_id
      ∧ (dupPageRow env.newId p).is_published = false) ∧
    (duplicateProject project env).all (fun e => !e.modifiesExisting) = true := by
  have hpos : env.fetchedPages.length > 0 := by omega
  refine ⟨?_, ?_, ?_, ?_, ?_⟩
  · simp [duplicateProject, hu, hp, hf, hi, hpos, projectsInserted, Effect.projectRows]
  · simp [duplicateProject, hu, hp, hf, hi, hpos, pagesInserted, Effect.pageRows]
  · simp [duplicateProject, hu, hp, hf, hi, hpos, pagesInserted, Effect.pageRows, h3]
  · intro p
    exact ⟨rfl, rfl, rfl, rfl, rfl, rfl, rfl, rfl, rfl⟩
  · simp [duplicateProject, hu, hp, hf, hi, hpos, Effect.modifiesExisting]

/-- C6 witness: duplicating the sample project over the sample environment
with three fetched pages yields exactly the three copied rows. -/
theorem duplicateProject_copies_pages_witness :
    pagesInserted (duplicateProject sampleProject sampleDupEnv)
      = [dupPageRow "pr2" samplePage, dupPageRow "pr2" samplePage2,
         dupPageRow "pr2" samplePage3]
    ∧ (pagesInserted (duplicateProject sampleProject sampleDupEnv)).length = 3 := by
  have h := duplicateProject_copies_pages sampleProject sampleDupEnv "u1" rfl rfl rfl rfl rfl
  exact ⟨by rw [h.2.1]; rfl, h.2.2.1⟩

/-- C7, at a failing input: handlePublish flips the local isPublished flag
from false to true, but the save it schedules runs the handleSave closure of
the same render, which captured the pre-flip pageData snapshot, so the issued
pages update carries is_published = false — the old value, not the new one
the claim and the spec require. -/
theorem handlePublish_stale_snapshot_saved :
    (handlePublish samplePageData).1.isPublished = true ∧
    (handleSave { pages := [samplePage], currentPage := some samplePage } (some "pr1")
        (handlePublish samplePageData).2 "2024-01-03" true).2
      = [Effect.updatePage "pg1" (saveRow samplePageData "2024-01-03"),
         Effect.toastSuccess "Page saved successfully!"] ∧
    (saveRow samplePageData "2024-01-03").is_published = false :=
  ⟨rfl, rfl, rfl⟩

/-- C8: after a successful dashboard load, totalProjects is the number of
fetched projects, publishedSites the number of those with is_published true,
totalViews the number of analytics rows, and activeUsers the floor of
totalViews times 0.4, which equals totalViews times two divided by five. -/
theorem dashboardStats_derivation (projectsData : List Project)
    (analyticsData : List Analytics) :
    (dashboardStats projectsData analyticsData).totalProjects = projectsData.length ∧
    (dashboardStats projectsData analyticsData).publishedSites
      = (projectsData.filter (fun p => p.is_published)).length ∧
    (dashboardStats projectsData analyticsData).totalViews = analyticsData.length ∧
    (dashboardStats projectsData analyticsData).activeUsers
      = Nat.floor (((dashboardStats projectsData analyticsData).totalViews : ℚ) * (4 / 10)) ∧
    (dashboardStats projectsData analyticsData).activeUsers
      = analyticsData.length * 2 / 5 := by
  refine ⟨rfl, rfl, rfl, rfl, ?_⟩
  show Nat.floor ((analyticsData.length : ℚ) * (4 / 10)) = analyticsData.length * 2 / 5
  have h : ((analyticsData.length : ℚ) * (4 / 10))
      = ((analyticsData.length * 2 : ℕ) : ℚ) / ((5 : ℕ) : ℚ) := by
    push_cast
    ring
  rw [h, Nat.floor_div_nat, Nat.floor_natCast]

end CMS

